import Mathlib

/-!
Verification development for the ldb-fuse repository (src/ldb-fuse.py).

The Python program exposes records of an LDB directory database as a
read-only FUSE tree.  This file gives a shallow embedding of the parts of
the program that the verified properties are about: path splitting
(`path.strip("/").split("/")`), the image-signature sniffer used to build
file names (the standard-library `imghdr.what`), the `User` entity, the
timestamp parsing done with `datetime.strptime(s, "%Y%m%d%H%M%SZ")`, the
`UserDataProvider` queries (abstracted over a snapshot of the backing
store plus a flag saying whether the store is reachable), and the three
filesystem operations of class `LDBFuse`: `getattr`, `readdir` and `read`.

Byte strings are modelled as `List Nat` (one entry per byte), exceptions
as `Except FuseErr`: `FuseOSError(ENOENT)` becomes `FuseErr.ENOENT`, a
`ValueError` escaping from `strptime` becomes `FuseErr.valueError`, the
`TypeError` raised by the concatenation of a string with `None` becomes
`FuseErr.typeError`, and a failure of the underlying LDB query becomes
`FuseErr.providerError`.
-/

/-- Error outcomes of an operation of the filesystem adapter.  `ENOENT` is
the `FuseOSError(ENOENT)` the code raises itself; the other three are
exceptions that escape the adapter uncaught. -/
inductive FuseErr where
  | ENOENT
  | valueError
  | typeError
  | providerError
deriving DecidableEq, Repr

instance {ε α : Type} [DecidableEq ε] [DecidableEq α] : DecidableEq (Except ε α) :=
  fun a b =>
    match a, b with
    | .error x, .error y =>
      if h : x = y then .isTrue (by rw [h]) else .isFalse (by intro hc; cases hc; exact h rfl)
    | .ok x, .ok y =>
      if h : x = y then .isTrue (by rw [h]) else .isFalse (by intro hc; cases hc; exact h rfl)
    | .error _, .ok _ => .isFalse (by intro hc; cases hc)
    | .ok _, .error _ => .isFalse (by intro hc; cases hc)

/-- Python slice `l[start:stop]` for non-negative bounds: it clamps to the
actual length of the sequence. -/
def pySlice (l : List Nat) (start stop : Nat) : List Nat :=
  (l.drop start).take (stop - start)

/-- UTF-8 encoding of one character, as byte values. -/
def utf8Bytes (c : Char) : List Nat :=
  let n := c.toNat
  if n < 0x80 then [n]
  else if n < 0x800 then [0xC0 + n / 0x40, 0x80 + n % 0x40]
  else if n < 0x10000 then
    [0xE0 + n / 0x1000, 0x80 + (n / 0x40) % 0x40, 0x80 + n % 0x40]
  else
    [0xF0 + n / 0x40000, 0x80 + (n / 0x1000) % 0x40, 0x80 + (n / 0x40) % 0x40, 0x80 + n % 0x40]

/-- Python `str.encode()`: UTF-8 bytes of a string. -/
def pyEncode (s : String) : List Nat :=
  s.data.foldr (fun c acc => utf8Bytes c ++ acc) []

/-- Python `sep.join(l)`. -/
def pyJoin (sep : String) : List String → String
  | [] => ""
  | [x] => x
  | x :: xs => x ++ sep ++ pyJoin sep xs

/-- Python `s.removesuffix(suffix)`: drops the suffix when present. -/
def removesuffix (s suffix : String) : String :=
  if suffix.data.isSuffixOf s.data then
    String.mk (s.data.take (s.data.length - suffix.data.length))
  else s

/-- Python `s.split(sep)` for a one-character separator, on the character
list: keeps empty groups, and the split of the empty string is a single
empty group. -/
def pySplitChars (sep : Char) : List Char → List (List Char)
  | [] => [[]]
  | c :: rest =>
    let r := pySplitChars sep rest
    if c == sep then [] :: r
    else
      match r with
      | g :: gs => (c :: g) :: gs
      | [] => [[c]]

/-- Python `s.strip("/")`: removes leading and trailing slash characters. -/
def pyStripSlashes (s : String) : String :=
  String.mk (((s.data.dropWhile (fun c => c == '/')).reverse.dropWhile (fun c => c == '/')).reverse)

/-- The path preprocessing every operation of `LDBFuse` performs:
`path.strip("/").split("/")`. -/
def splitPath (p : String) : List String :=
  (pySplitChars '/' (pyStripSlashes p).data).map String.mk

/-- Models the standard-library `imghdr.what(None, h=h)` on a byte string:
the thirteen magic-number tests, in the order of the `imghdr.tests` list of
CPython. -/
def imghdr_what (h : List Nat) : Option String :=
  if pySlice h 6 10 == [0x4A, 0x46, 0x49, 0x46] || pySlice h 6 10 == [0x45, 0x78, 0x69, 0x66] then
    some "jpeg"
  else if [0x89, 0x50, 0x4E, 0x47, 0x0D, 0x0A, 0x1A, 0x0A].isPrefixOf h then some "png"
  else if h.take 6 == [0x47, 0x49, 0x46, 0x38, 0x37, 0x61]
       || h.take 6 == [0x47, 0x49, 0x46, 0x38, 0x39, 0x61] then some "gif"
  else if h.take 2 == [0x4D, 0x4D] || h.take 2 == [0x49, 0x49] then some "tiff"
  else if [0x01, 0xDA].isPrefixOf h then some "rgb"
  else
    match h with
    | 0x50 :: b :: c :: _ =>
      if (c == 0x20 || c == 0x09 || c == 0x0A || c == 0x0D) then
        if b == 0x31 || b == 0x34 then some "pbm"
        else if b == 0x32 || b == 0x35 then some "pgm"
        else if b == 0x33 || b == 0x36 then some "ppm"
        else imghdr_what_rest h
      else imghdr_what_rest h
    | _ => imghdr_what_rest h
where
  /-- Tests following the portable-bitmap family in the `imghdr.tests` list. -/
  imghdr_what_rest (h : List Nat) : Option String :=
    if [0x59, 0xA6, 0x6A, 0x95].isPrefixOf h then some "rast"
    else if [0x23, 0x64, 0x65, 0x66, 0x69, 0x6E, 0x65, 0x20].isPrefixOf h then some "xbm"
    else if [0x42, 0x4D].isPrefixOf h then some "bmp"
    else if [0x52, 0x49, 0x46, 0x46].isPrefixOf h && pySlice h 8 12 == [0x57, 0x45, 0x42, 0x50] then
      some "webp"
    else if [0x76, 0x2F, 0x31, 0x01].isPrefixOf h then some "exr"
    else none

/-- One directory-service identity, as class `User` of the source: the
photo and thumbnail attributes are absent (`None`) when the record lacks
them. -/
structure User where
  name : String
  uidNumber : String
  originalModifyTimestamp : String
  jpegPhoto : Option (List Nat)
  thumbnailPhoto : Option (List Nat)
deriving DecidableEq, Repr

/-- Python truthiness of an optional byte string: `None` and the empty
byte string are falsy. -/
def truthyBytes : Option (List Nat) → Bool
  | none => false
  | some b => !b.isEmpty

/-- The byte payload of an optional byte string (only consulted after a
truthiness check in the source). -/
def bytesOf : Option (List Nat) → List Nat
  | none => []
  | some b => b

/-- Method `User.photo_file_extension`: sniffs the photo bytes. -/
def User.photo_file_extension (u : User) : Option String :=
  imghdr_what (bytesOf u.jpegPhoto)

/-- Method `User.thumbnail_file_extension`: sniffs the thumbnail bytes. -/
def User.thumbnail_file_extension (u : User) : Option String :=
  imghdr_what (bytesOf u.thumbnailPhoto)

/-- Method `User.photo_filename`: raises `FuseOSError(ENOENT)` when the
photo attribute is falsy; otherwise builds `"photo." + extension`, which
raises a `TypeError` when the sniffer returned `None`. -/
def User.photo_filename (u : User) : Except FuseErr String :=
  if truthyBytes u.jpegPhoto then
    match imghdr_what (bytesOf u.jpegPhoto) with
    | some ext => .ok ("photo." ++ ext)
    | none => .error .typeError
  else .error .ENOENT

/-- Method `User.thumbnail_filename`: same shape as `photo_filename` for
the thumbnail attribute. -/
def User.thumbnail_filename (u : User) : Except FuseErr String :=
  if truthyBytes u.thumbnailPhoto then
    match imghdr_what (bytesOf u.thumbnailPhoto) with
    | some ext => .ok ("thumbnail." ++ ext)
    | none => .error .typeError
  else .error .ENOENT

/-- Gregorian leap-year rule. -/
def isLeap (y : Nat) : Bool :=
  (y % 4 == 0 && y % 100 != 0) || y % 400 == 0

/-- Lengths of the twelve months. -/
def monthLengths (leap : Bool) : List Nat :=
  [31, if leap then 29 else 28, 31, 30, 31, 30, 31, 31, 30, 31, 30, 31]

/-- Number of days in a month of a year (months counted from 1). -/
def daysInMonth (y m : Nat) : Nat :=
  (monthLengths (isLeap y)).getD (m - 1) 0

/-- Days of the proleptic Gregorian calendar strictly before year `y`
(year counted from 1, as `date.toordinal` of Python does). -/
def daysBeforeYear (y : Nat) : Nat :=
  365 * (y - 1) + (y - 1) / 4 - (y - 1) / 100 + (y - 1) / 400

/-- Ordinal of a day within its year (1 for January 1st). -/
def dayOfYear (y m d : Nat) : Nat :=
  ((monthLengths (isLeap y)).take (m - 1)).foldl (fun a b => a + b) 0 + d

/-- Value of a list of decimal digit characters. -/
def digitsToNat (l : List Char) : Nat :=
  l.foldl (fun a c => a * 10 + (c.toNat - 48)) 0

/-- Splits a digit string into fields of the given sizes, reading each
field as a number. -/
def takeFields : List Nat → List Char → List Nat
  | [], _ => []
  | sz :: rest, ds => digitsToNat (ds.take sz) :: takeFields rest (ds.drop sz)

/-- Field widths the CPython `_strptime` regex assigns for the five
one-or-two-digit fields of `"%m%d%H%M%SZ"` when `n` digits follow the
four-digit year: the regex is greedy with left precedence, so the first
`n - 5` fields take two digits and the rest take one. -/
def fieldSizes (n : Nat) : List Nat :=
  (List.range 5).map (fun i => if i < n - 5 then 2 else 1)

/-- Models `int(datetime.strptime(s, "%Y%m%d%H%M%SZ").timestamp())` of the
source: `none` when `strptime` raises `ValueError` (wrong shape, or a
field out of range for the `datetime` constructor), otherwise the epoch
value of the parsed instant.  The CPython regex takes exactly four digits
for `%Y`, one or two (greedily) for each of `%m %d %H %M %S`, then the
literal `Z` case-insensitively, and the whole string must be consumed.
`datetime.timestamp()` interprets the naive result in the local timezone;
the value below is the UTC interpretation (no verified property depends on
the numeric value, only on success or failure of the parse). -/
def parseModifyTimestamp (s : String) : Option Int :=
  match s.data.getLast? with
  | none => none
  | some last =>
    if last == 'Z' || last == 'z' then
      let ds := s.data.dropLast
      if ds.all Char.isDigit && 9 ≤ ds.length && ds.length ≤ 14 then
        let year := digitsToNat (ds.take 4)
        let rest := ds.drop 4
        match takeFields (fieldSizes rest.length) rest with
        | [mo, da, ho, mi, se] =>
          if 1 ≤ year ∧ 1 ≤ mo ∧ mo ≤ 12 ∧ 1 ≤ da ∧ da ≤ daysInMonth year mo
             ∧ ho ≤ 23 ∧ mi ≤ 59 ∧ se ≤ 59 then
            some ((((daysBeforeYear year + dayOfYear year mo da : Nat) : Int) - 719163) * 86400
                  + ((ho * 3600 + mi * 60 + se : Nat) : Int))
          else none
        | _ => none
      else none
    else none

/-- Snapshot view of class `UserDataProvider`: the users and the raw
sudo-user names the LDB store would return, plus a flag saying whether the
underlying queries succeed.  When `ok` is `false` every query raises
(modelling an I/O or protocol failure of the LDB client, the
`ProviderError` of the specification). -/
structure UserDataProvider where
  users : List User
  sudoersRaw : List String
  ok : Bool
deriving DecidableEq, Repr

/-- Method `UserDataProvider.get_all_users`: all user records. -/
def UserDataProvider.get_all_users (p : UserDataProvider) : Except FuseErr (List User) :=
  if p.ok then .ok p.users else .error .providerError

/-- Method `UserDataProvider.get_user`: first record whose name attribute
matches, `None` when there is none. -/
def UserDataProvider.get_user (p : UserDataProvider) (full_username : String) :
    Except FuseErr (Option User) :=
  if p.ok then .ok (p.users.find? (fun u => u.name == full_username)) else .error .providerError

/-- Method `UserDataProvider.get_sudoers` for the local host: the raw
sudo-user names with the legacy domain suffix stripped. -/
def UserDataProvider.get_sudoers (p : UserDataProvider) : Except FuseErr (List String) :=
  if p.ok then .ok (p.sudoersRaw.map (fun s => removesuffix s "@ldap.luffy.ai"))
  else .error .providerError

/-- Method `UserDataProvider.get_sudoers_as_bytes`:
`("\n".join(self.get_sudoers(hostname))+"\n").encode()`. -/
def UserDataProvider.get_sudoers_as_bytes (p : UserDataProvider) : Except FuseErr (List Nat) :=
  match p.get_sudoers with
  | .error e => .error e
  | .ok names => .ok (pyEncode (pyJoin "\n" names ++ "\n"))

/-- The stat dictionary both stat generators of `LDBFuse` build. -/
structure Stat where
  st_atime : Int
  st_ctime : Int
  st_mtime : Int
  st_gid : Nat
  st_uid : Nat
  st_mode : Nat
  st_nlink : Nat
  st_size : Nat
deriving DecidableEq, Repr

/-- Static method `LDBFuse._generate_dir_stat` at the argument values the
source ever passes (only `mtime`; everything else keeps its default). -/
def generate_dir_stat (mtime : Int) : Stat :=
  ⟨0, 0, mtime, 0, 0, 0o40555, 0, 0⟩

/-- Static method `LDBFuse._generate_file_stat` at the argument values the
source ever passes (only `mtime` and `size`). -/
def generate_file_stat (mtime : Int) (size : Nat) : Stat :=
  ⟨0, 0, mtime, 0, 0, 0o100444, 0, size⟩

/-- Body of the `["users", username]` arm of `LDBFuse.getattr`, together
with the guard `user := self.provider.get_user(username)` (a `None`
result makes the guard fail and control reach the final
`raise FuseOSError(ENOENT)`). -/
def getattrUserDir (p : UserDataProvider) (username : String) : Except FuseErr Stat :=
  match p.get_user username with
  | .error e => .error e
  | .ok none => .error .ENOENT
  | .ok (some user) =>
    match parseModifyTimestamp user.originalModifyTimestamp with
    | none => .error .valueError
    | some epoch => .ok (generate_dir_stat epoch)

/-- Body of the `["users", username, filename]` arm of `LDBFuse.getattr`:
the photo filename is computed and compared first (its exceptions
propagate), then the thumbnail filename, then `FuseOSError(ENOENT)`. -/
def getattrUserFile (p : UserDataProvider) (username filename : String) : Except FuseErr Stat :=
  match p.get_user username with
  | .error e => .error e
  | .ok none => .error .ENOENT
  | .ok (some user) =>
    match user.photo_filename with
    | .error e => .error e
    | .ok pf =>
      if filename == pf then
        match parseModifyTimestamp user.originalModifyTimestamp with
        | none => .error .valueError
        | some epoch => .ok (generate_file_stat epoch (bytesOf user.jpegPhoto).length)
      else
        match user.thumbnail_filename with
        | .error e => .error e
        | .ok tf =>
          if filename == tf then
            match parseModifyTimestamp user.originalModifyTimestamp with
            | none => .error .valueError
            | some epoch => .ok (generate_file_stat epoch (bytesOf user.thumbnailPhoto).length)
          else .error .ENOENT

/-- Body of the `["sudoers.txt"]` arm of `LDBFuse.getattr`. -/
def getattrSudoers (p : UserDataProvider) : Except FuseErr Stat :=
  match p.get_sudoers_as_bytes with
  | .error e => .error e
  | .ok bs => .ok (generate_file_stat 0 bs.length)

/-- Operation `LDBFuse.getattr`. -/
def LDBFuse.getattr (p : UserDataProvider) (path : String) : Except FuseErr Stat :=
  match splitPath path with
  | [""] => .ok (generate_dir_stat 0)
  | ["users"] => .ok (generate_dir_stat 0)
  | ["users", username] => getattrUserDir p username
  | ["users", username, filename] => getattrUserFile p username filename
  | ["sudoers.txt"] => getattrSudoers p
  | _ => .error .ENOENT

/-- Body of the `["users", username]` arm of `LDBFuse.readdir`: the photo
entry is appended when the photo attribute is truthy, then the thumbnail
entry; filename-construction exceptions propagate. -/
def readdirUserDir (p : UserDataProvider) (username : String) : Except FuseErr (List String) :=
  match p.get_user username with
  | .error e => .error e
  | .ok none => .error .ENOENT
  | .ok (some user) =>
    match (if truthyBytes user.jpegPhoto then Except.map (fun f => [f]) user.photo_filename
           else .ok []) with
    | .error e => .error e
    | .ok photoEntries =>
      match (if truthyBytes user.thumbnailPhoto then
               Except.map (fun f => [f]) user.thumbnail_filename
             else .ok []) with
      | .error e => .error e
      | .ok thumbEntries => .ok ([".", ".."] ++ photoEntries ++ thumbEntries)

/-- Body of the `["users"]` arm of `LDBFuse.readdir`: all user names from
one `get_all_users` call. -/
def readdirUsers (p : UserDataProvider) : Except FuseErr (List String) :=
  match p.get_all_users with
  | .error e => .error e
  | .ok allusers => .ok ([".", ".."] ++ allusers.map User.name)

/-- Operation `LDBFuse.readdir`. -/
def LDBFuse.readdir (p : UserDataProvider) (path : String) : Except FuseErr (List String) :=
  match splitPath path with
  | [""] => .ok [".", "..", "users", "sudoers.txt"]
  | ["users"] => readdirUsers p
  | ["users", username] => readdirUserDir p username
  | _ => .error .ENOENT

/-- Thumbnail half of the user-file arm of `LDBFuse.read`: evaluated when
the photo condition `user.jpegPhoto and filename == user.photo_filename()`
was falsy. -/
def readUserThumb (user : User) (filename : String) (length offset : Nat) :
    Except FuseErr (List Nat) :=
  if truthyBytes user.thumbnailPhoto then
    match user.thumbnail_filename with
    | .error e => .error e
    | .ok tf =>
      if filename == tf then .ok (pySlice (bytesOf user.thumbnailPhoto) offset (offset + length))
      else .error .ENOENT
  else .error .ENOENT

/-- Body of the `["users", username, filename]` arm of `LDBFuse.read`:
short-circuit check of the photo, then of the thumbnail, then
`FuseOSError(ENOENT)`. -/
def readUserFile (user : User) (filename : String) (length offset : Nat) :
    Except FuseErr (List Nat) :=
  if truthyBytes user.jpegPhoto then
    match user.photo_filename with
    | .error e => .error e
    | .ok pf =>
      if filename == pf then .ok (pySlice (bytesOf user.jpegPhoto) offset (offset + length))
      else readUserThumb user filename length offset
  else readUserThumb user filename length offset

/-- The `["users", username, filename]` arm of `LDBFuse.read`, together
with the guard on `get_user`. -/
def readUsersArm (p : UserDataProvider) (username filename : String) (length offset : Nat) :
    Except FuseErr (List Nat) :=
  match p.get_user username with
  | .error e => .error e
  | .ok none => .error .ENOENT
  | .ok (some user) => readUserFile user filename length offset

/-- The `["sudoers.txt"]` arm of `LDBFuse.read`. -/
def readSudoersArm (p : UserDataProvider) (length offset : Nat) : Except FuseErr (List Nat) :=
  match p.get_sudoers_as_bytes with
  | .error e => .error e
  | .ok bs => .ok (pySlice bs offset (offset + length))

/-- Operation `LDBFuse.read`. -/
def LDBFuse.read (p : UserDataProvider) (path : String) (length offset : Nat) :
    Except FuseErr (List Nat) :=
  match splitPath path with
  | ["users", username, filename] => readUsersArm p username filename length offset
  | ["sudoers.txt"] => readSudoersArm p length offset
  | _ => .error .ENOENT

/-- Modelled from the spec: the sudoers text rendering described in words
as each authorized username, suffix already stripped, followed by a
newline, joined in the order of the list.  This is the spec-side
definition compared against `get_sudoers_as_bytes`, which renders via
`"\n".join(...) + "\n"`. -/
def specConcatLines : List String → String
  | [] => ""
  | [x] => x ++ "\n"
  | x :: y :: ys => x ++ "\n" ++ specConcatLines (y :: ys)

/-- Modelled from the spec: byte rendering of the sudoers list, one
newline-terminated line per username. -/
def specSudoersRendering (names : List String) : List Nat :=
  pyEncode (specConcatLines names)

/-- Byte string beginning with the PNG signature. -/
def pngBytes : List Nat := [0x89, 0x50, 0x4E, 0x47, 0x0D, 0x0A, 0x1A, 0x0A, 0, 1, 2]

/-- User that has a thumbnail but no photo. -/
def claire : User := ⟨"claire@example.com", "1000", "20200102030405Z", none, some pngBytes⟩

/-- User with a recognized photo and a well-formed timestamp. -/
def alice : User := ⟨"alice@example.com", "1", "20200102030405Z", some pngBytes, none⟩

/-- User whose photo bytes carry no recognized image signature. -/
def dave : User := ⟨"dave@example.com", "1001", "20200102030405Z", some [1, 2, 3], none⟩

/-- User whose modify timestamp does not parse. -/
def mallory : User := ⟨"mallory@example.com", "1002", "not-a-timestamp", none, some pngBytes⟩

/-- User with a recognized photo but an unparseable modify timestamp. -/
def erin : User := ⟨"erin@example.com", "1003", "eighteen-o-five", some pngBytes, none⟩

/-- User with a recognized photo and a thumbnail whose bytes carry no
recognized image signature. -/
def frank : User := ⟨"frank@example.com", "1004", "20200102030405Z", some pngBytes, some [1, 2, 3]⟩

/-- Provider snapshot holding only `claire`. -/
def pClaire : UserDataProvider := ⟨[claire], [], true⟩

/-- Provider snapshot holding only `alice`. -/
def pAlice : UserDataProvider := ⟨[alice], [], true⟩

/-- Provider snapshot holding only `dave`. -/
def pDave : UserDataProvider := ⟨[dave], [], true⟩

/-- Provider snapshot holding only `mallory`. -/
def pMallory : UserDataProvider := ⟨[mallory], [], true⟩

/-- Provider snapshot holding only `erin`. -/
def pErin : UserDataProvider := ⟨[erin], [], true⟩

/-- Provider snapshot holding only `frank`. -/
def pFrank : UserDataProvider := ⟨[frank], [], true⟩

/-- Provider snapshot whose sudoers list is `["carol", "dave"]`. -/
def pCarol : UserDataProvider := ⟨[], ["carol", "dave"], true⟩

/-- Provider snapshot with no users and no sudoers. -/
def pEmpty : UserDataProvider := ⟨[], [], true⟩

/-- Provider whose backing store is unreachable: every query raises. -/
def pDown : UserDataProvider := ⟨[], [], false⟩

/-- Resolution of `getattr` for a two-segment users path. -/
theorem getattr_eq_userdir (p : UserDataProvider) (path name : String)
    (h : splitPath path = ["users", name]) :
    LDBFuse.getattr p path = getattrUserDir p name := by
  unfold LDBFuse.getattr
  rw [h]
  rfl

/-- Resolution of `getattr` for a three-segment users path. -/
theorem getattr_eq_userfile (p : UserDataProvider) (path name f : String)
    (h : splitPath path = ["users", name, f]) :
    LDBFuse.getattr p path = getattrUserFile p name f := by
  unfold LDBFuse.getattr
  rw [h]
  rfl

/-- Resolution of `getattr` for the sudoers path. -/
theorem getattr_eq_sudoers (p : UserDataProvider) (path : String)
    (h : splitPath path = ["sudoers.txt"]) :
    LDBFuse.getattr p path = getattrSudoers p := by
  unfold LDBFuse.getattr
  rw [h]
  rfl

/-- Resolution of `readdir` for the all-users path. -/
theorem readdir_eq_users (p : UserDataProvider) (path : String)
    (h : splitPath path = ["users"]) :
    LDBFuse.readdir p path = readdirUsers p := by
  unfold LDBFuse.readdir
  rw [h]
  rfl

/-- Resolution of `readdir` for a two-segment users path. -/
theorem readdir_eq_userdir (p : UserDataProvider) (path name : String)
    (h : splitPath path = ["users", name]) :
    LDBFuse.readdir p path = readdirUserDir p name := by
  unfold LDBFuse.readdir
  rw [h]
  rfl

/-- Resolution of `read` for a three-segment users path. -/
theorem read_eq_usersarm (p : UserDataProvider) (path name f : String) (L O : Nat)
    (h : splitPath path = ["users", name, f]) :
    LDBFuse.read p path L O = readUsersArm p name f L O := by
  unfold LDBFuse.read
  rw [h]
  rfl

/-- Resolution of `read` for the sudoers path. -/
theorem read_eq_sudoersarm (p : UserDataProvider) (path : String) (L O : Nat)
    (h : splitPath path = ["sudoers.txt"]) :
    LDBFuse.read p path L O = readSudoersArm p L O := by
  unfold LDBFuse.read
  rw [h]
  rfl

/-- The code rendering `"\n".join(names) + "\n"` agrees with the spec
rendering (one newline-terminated line per name) whenever the list is
nonempty. -/
theorem pyJoin_newline (names : List String) (hne : names ≠ []) :
    pyJoin "\n" names ++ "\n" = specConcatLines names := by
  induction names with
  | nil => exact absurd rfl hne
  | cons x xs ih =>
    cases xs with
    | nil => rfl
    | cons y ys =>
      show (x ++ "\n" ++ pyJoin "\n" (y :: ys)) ++ "\n" = x ++ "\n" ++ specConcatLines (y :: ys)
      rw [String.append_assoc, ih (by simp)]

/-- A slice starting at the length of the list or beyond is empty. -/
theorem pySlice_of_le_start (l : List Nat) (a b : Nat) (h : l.length ≤ a) :
    pySlice l a b = [] := by
  unfold pySlice
  rw [List.drop_eq_nil_of_le h]
  exact List.take_nil

/-- A slice whose upper bound covers the rest of the list is the whole
rest of the list. -/
theorem pySlice_of_le_stop (l : List Nat) (a b : Nat) (h : l.length ≤ b) :
    pySlice l a b = l.drop a := by
  unfold pySlice
  apply List.take_of_length_le
  rw [List.length_drop]
  omega

/-- A slice from zero of at least the whole length is the whole list. -/
theorem pySlice_zero_of_le (l : List Nat) (b : Nat) (h : l.length ≤ b) :
    pySlice l 0 b = l := by
  rw [pySlice_of_le_stop l 0 b h]
  rfl

/-- C8: the path strings "/", "" and "///" all resolve to the root node:
`getattr` returns the same directory metadata (directory mode 0o40555,
size 0, epoch-0 timestamps) on each of them, for every provider state. -/
theorem c8_slash_path_variants (p : UserDataProvider) :
    LDBFuse.getattr p "/" = .ok (generate_dir_stat 0)
    ∧ LDBFuse.getattr p "" = .ok (generate_dir_stat 0)
    ∧ LDBFuse.getattr p "///" = .ok (generate_dir_stat 0)
    ∧ (generate_dir_stat 0).st_mode = 0o40555
    ∧ (generate_dir_stat 0).st_size = 0
    ∧ (generate_dir_stat 0).st_atime = 0
    ∧ (generate_dir_stat 0).st_ctime = 0
    ∧ (generate_dir_stat 0).st_mtime = 0 :=
  ⟨rfl, rfl, rfl, rfl, rfl, rfl, rfl, rfl⟩

/-- Every success of the user-directory arm of `getattr` is a directory
stat. -/
theorem getattrUserDir_ok (p : UserDataProvider) (n : String) (st : Stat)
    (h : getattrUserDir p n = .ok st) : ∃ e, st = generate_dir_stat e := by
  unfold getattrUserDir at h
  split at h
  · simp at h
  · simp at h
  · split at h
    · simp at h
    · exact ⟨_, by injection h with h; exact h.symm⟩

/-- Every success of the user-file arm of `getattr` is a file stat. -/
theorem getattrUserFile_ok (p : UserDataProvider) (n f : String) (st : Stat)
    (h : getattrUserFile p n f = .ok st) : ∃ e s, st = generate_file_stat e s := by
  unfold getattrUserFile at h
  split at h
  · simp at h
  · simp at h
  · split at h
    · simp at h
    · split at h
      · split at h
        · simp at h
        · exact ⟨_, _, by injection h with h; exact h.symm⟩
      · split at h
        · simp at h
        · split at h
          · split at h
            · simp at h
            · exact ⟨_, _, by injection h with h; exact h.symm⟩
          · simp at h

/-- Every success of the sudoers arm of `getattr` is a file stat with
modification time 0. -/
theorem getattrSudoers_ok (p : UserDataProvider) (st : Stat)
    (h : getattrSudoers p = .ok st) : ∃ s, st = generate_file_stat 0 s := by
  unfold getattrSudoers at h
  split at h
  · simp at h
  · exact ⟨_, by injection h with h; exact h.symm⟩

/-- C10: every metadata result a successful `getattr` returns reports
owner uid 0, group gid 0, link count 0, access and change times 0, and a
mode that is exactly 0o40555 (with size 0) for directory nodes or exactly
0o100444 for file nodes; only the modification time and the size vary. -/
theorem c10_stat_invariants (p : UserDataProvider) (path : String) (st : Stat)
    (h : LDBFuse.getattr p path = .ok st) :
    st.st_atime = 0 ∧ st.st_ctime = 0 ∧ st.st_uid = 0 ∧ st.st_gid = 0 ∧ st.st_nlink = 0
    ∧ ((st.st_mode = 0o40555 ∧ st.st_size = 0) ∨ st.st_mode = 0o100444) := by
  have hshape : (∃ e, st = generate_dir_stat e) ∨ (∃ e s, st = generate_file_stat e s) := by
    unfold LDBFuse.getattr at h
    split at h
    · exact Or.inl ⟨0, by injection h with h; exact h.symm⟩
    · exact Or.inl ⟨0, by injection h with h; exact h.symm⟩
    · exact Or.inl (getattrUserDir_ok _ _ _ h)
    · exact Or.inr (getattrUserFile_ok _ _ _ _ h)
    · exact Or.inr (by obtain ⟨s, hs⟩ := getattrSudoers_ok _ _ h; exact ⟨0, s, hs⟩)
    · simp at h
  rcases hshape with ⟨e, rfl⟩ | ⟨e, s, rfl⟩
  · exact ⟨rfl, rfl, rfl, rfl, rfl, Or.inl ⟨rfl, rfl⟩⟩
  · exact ⟨rfl, rfl, rfl, rfl, rfl, Or.inr rfl⟩

/-- Witness for C10 at a concrete input: `getattr` of the root. -/
theorem c10_stat_invariants_witness :
    (generate_dir_stat 0).st_atime = 0 ∧ (generate_dir_stat 0).st_ctime = 0
    ∧ (generate_dir_stat 0).st_uid = 0 ∧ (generate_dir_stat 0).st_gid = 0
    ∧ (generate_dir_stat 0).st_nlink = 0
    ∧ (((generate_dir_stat 0).st_mode = 0o40555 ∧ (generate_dir_stat 0).st_size = 0)
       ∨ (generate_dir_stat 0).st_mode = 0o100444) :=
  c10_stat_invariants pEmpty "/" (generate_dir_stat 0) rfl

/-- A full-payload read through the thumbnail half determines every other
read through it: the result is always the matching slice of the payload. -/
theorem readUserThumb_full (u : User) (f : String) (N L O : Nat) (payload : List Nat)
    (h : readUserThumb u f N 0 = .ok payload) (hN : payload.length < N) :
    readUserThumb u f L O = .ok (pySlice payload O (O + L)) := by
  unfold readUserThumb at h ⊢
  split at h
  · next htr =>
    rw [if_pos htr]
    split at h
    · simp at h
    · next tf hpf =>
      by_cases hfp : (f == tf) = true
      · rw [if_pos hfp] at h ⊢
        injection h with h
        have hpl : payload = bytesOf u.thumbnailPhoto := by
          rw [← h]
          simp only [pySlice, List.drop_zero, Nat.zero_add, Nat.sub_zero]
          apply List.take_of_length_le
          rw [← h] at hN
          simp only [pySlice, List.drop_zero, Nat.zero_add, Nat.sub_zero,
            List.length_take] at hN
          omega
        rw [hpl]
      · rw [if_neg hfp] at h; simp at h
  · next htr =>
    rw [if_neg htr]
    simp at h

/-- A full-payload read through the user-file arm determines every other
read through it. -/
theorem readUserFile_full (u : User) (f : String) (N L O : Nat) (payload : List Nat)
    (h : readUserFile u f N 0 = .ok payload) (hN : payload.length < N) :
    readUserFile u f L O = .ok (pySlice payload O (O + L)) := by
  unfold readUserFile at h ⊢
  split at h
  · next htr =>
    rw [if_pos htr]
    split at h
    · simp at h
    · next pf hpf =>
      by_cases hfp : (f == pf) = true
      · rw [if_pos hfp] at h ⊢
        injection h with h
        have hpl : payload = bytesOf u.jpegPhoto := by
          rw [← h]
          simp only [pySlice, List.drop_zero, Nat.zero_add, Nat.sub_zero]
          apply List.take_of_length_le
          rw [← h] at hN
          simp only [pySlice, List.drop_zero, Nat.zero_add, Nat.sub_zero,
            List.length_take] at hN
          omega
        rw [hpl]
      · rw [if_neg hfp] at h ⊢
        exact readUserThumb_full u f N L O payload h hN
  · next htr =>
    rw [if_neg htr]
    exact readUserThumb_full u f N L O payload h hN

/-- C6: reads clamp to the actual bounds of the payload.  A read of `N`
bytes at offset 0 that returns fewer than `N` bytes exhibits the whole
payload of the file node; every other read of that node returns exactly
the Python slice `payload[O : O + L]`, which is empty when the offset is
at or past the payload length and is the remainder from the offset when
the upper bound overshoots. -/
theorem c6_read_clamps (p : UserDataProvider) (path : String) (N L O : Nat)
    (payload : List Nat)
    (hfull : LDBFuse.read p path N 0 = .ok payload) (hN : payload.length < N) :
    LDBFuse.read p path L O = .ok (pySlice payload O (O + L))
    ∧ (payload.length ≤ O → pySlice payload O (O + L) = [])
    ∧ (payload.length ≤ O + L → pySlice payload O (O + L) = payload.drop O) := by
  refine ⟨?_, fun ho => pySlice_of_le_start _ _ _ ho, fun ho => pySlice_of_le_stop _ _ _ ho⟩
  unfold LDBFuse.read at hfull
  split at hfull
  · next name f heq =>
    rw [read_eq_usersarm p path name f L O heq]
    unfold readUsersArm at hfull ⊢
    split at hfull
    · simp at hfull
    · simp at hfull
    · exact readUserFile_full _ f N L O payload hfull hN
  · next heq =>
    rw [read_eq_sudoersarm p path L O heq]
    unfold readSudoersArm at hfull ⊢
    split at hfull
    · simp at hfull
    · next bs heq2 =>
      injection hfull with hfull
      have hpl : payload = bs := by
        rw [← hfull]
        simp only [pySlice, List.drop_zero, Nat.zero_add, Nat.sub_zero]
        apply List.take_of_length_le
        rw [← hfull] at hN
        simp only [pySlice, List.drop_zero, Nat.zero_add, Nat.sub_zero,
          List.length_take] at hN
        omega
      rw [hpl]
  · simp at hfull

/-- Witness for C6: the sudoers payload of `pCarol` has 11 bytes, so a
read at offset 50 comes back as the empty clamped slice. -/
theorem c6_read_clamps_witness :
    LDBFuse.read pCarol "/sudoers.txt" 7 50
      = .ok (pySlice [99, 97, 114, 111, 108, 10, 100, 97, 118, 101, 10] 50 (50 + 7))
    ∧ (List.length [99, 97, 114, 111, 108, 10, 100, 97, 118, 101, 10] ≤ 50 →
        pySlice [99, 97, 114, 111, 108, 10, 100, 97, 118, 101, 10] 50 (50 + 7) = [])
    ∧ (List.length [99, 97, 114, 111, 108, 10, 100, 97, 118, 101, 10] ≤ 50 + 7 →
        pySlice [99, 97, 114, 111, 108, 10, 100, 97, 118, 101, 10] 50 (50 + 7)
          = List.drop 50 [99, 97, 114, 111, 108, 10, 100, 97, 118, 101, 10]) :=
  c6_read_clamps pCarol "/sudoers.txt" 1000 7 50
    [99, 97, 114, 111, 108, 10, 100, 97, 118, 101, 10] (by decide) (by decide)

/-- C1, evaluated at the failing input: for the user `claire`, who has a
thumbnail but no photo, `getattr` of the thumbnail path raises
`FuseOSError(ENOENT)` even though `readdir` lists the entry and `read`
serves its bytes; in fact `getattr` raises ENOENT for every filename under
that user, because it calls `photo_filename` unguarded and that call
raises ENOENT before the thumbnail comparison is reached. -/
theorem c1_thumbnail_without_photo :
    LDBFuse.getattr pClaire "/users/claire@example.com/thumbnail.png" = .error .ENOENT
    ∧ LDBFuse.readdir pClaire "/users/claire@example.com" = .ok [".", "..", "thumbnail.png"]
    ∧ LDBFuse.read pClaire "/users/claire@example.com/thumbnail.png" 11 0 = .ok pngBytes
    ∧ (∀ path f, splitPath path = ["users", "claire@example.com", f] →
        LDBFuse.getattr pClaire path = .error FuseErr.ENOENT) := by
  refine ⟨by decide, by decide, by decide, ?_⟩
  intro path f hsp
  rw [getattr_eq_userfile pClaire path "claire@example.com" f hsp]
  rfl

/-- Witness for C1: the universally quantified part applied to one of the
guessed photo extensions. -/
theorem c1_thumbnail_without_photo_witness :
    LDBFuse.getattr pClaire "/users/claire@example.com/photo.gif" = .error FuseErr.ENOENT :=
  c1_thumbnail_without_photo.2.2.2 "/users/claire@example.com/photo.gif" "photo.gif" (by decide)

/-- C2 fails on the code: for the user `mallory`, whose timestamp string
does not parse, `getattr` of the user directory raises the `ValueError`
out of the adapter instead of returning directory metadata. -/
theorem c2_counterexample :
    LDBFuse.getattr pMallory "/users/mallory@example.com" = .error .valueError
    ∧ parseModifyTimestamp mallory.originalModifyTimestamp = none := by decide

/-- C2 as amended: when the modify timestamp of a user does not parse,
`getattr` on the user directory raises the parse error; there is no
degradation to epoch 0. -/
theorem c2_unparsed_mtime (p : UserDataProvider) (path name : String) (u : User)
    (hsp : splitPath path = ["users", name])
    (hu : p.get_user name = .ok (some u))
    (hts : parseModifyTimestamp u.originalModifyTimestamp = none) :
    LDBFuse.getattr p path = .error .valueError := by
  rw [getattr_eq_userdir p path name hsp]
  simp [getattrUserDir, hu, hts]

/-- Witness for C2 as amended. -/
theorem c2_unparsed_mtime_witness :
    LDBFuse.getattr pMallory "/users/mallory@example.com" = .error .valueError :=
  c2_unparsed_mtime pMallory "/users/mallory@example.com" "mallory@example.com" mallory
    (by decide) (by decide) (by decide)

/-- C3 fails on the code: with the backing store down, `getattr` of a user
path surfaces the provider failure, not the not-found error. -/
theorem c3_counterexample :
    LDBFuse.getattr pDown "/users/bob@example.com" = .error .providerError
    ∧ LDBFuse.getattr pDown "/users/bob@example.com" ≠ .error .ENOENT := by decide

/-- C3 as amended: when a provider query fails, every operation that
consults the provider propagates the provider failure out of the adapter
unchanged; nothing translates it to ENOENT. -/
theorem c3_provider_error_propagates (p : UserDataProvider) (path : String) (L O : Nat)
    (hfail : p.ok = false) :
    ((∃ u, splitPath path = ["users", u]) → LDBFuse.getattr p path = .error .providerError)
    ∧ ((∃ u f, splitPath path = ["users", u, f]) →
        LDBFuse.getattr p path = .error .providerError)
    ∧ (splitPath path = ["sudoers.txt"] → LDBFuse.getattr p path = .error .providerError)
    ∧ (splitPath path = ["users"] → LDBFuse.readdir p path = .error .providerError)
    ∧ ((∃ u, splitPath path = ["users", u]) → LDBFuse.readdir p path = .error .providerError)
    ∧ ((∃ u f, splitPath path = ["users", u, f]) →
        LDBFuse.read p path L O = .error .providerError)
    ∧ (splitPath path = ["sudoers.txt"] → LDBFuse.read p path L O = .error .providerError) := by
  have hgu : ∀ n, p.get_user n = .error .providerError := fun n => by
    simp [UserDataProvider.get_user, hfail]
  have hga : p.get_all_users = .error .providerError := by
    simp [UserDataProvider.get_all_users, hfail]
  have hgs : p.get_sudoers_as_bytes = .error .providerError := by
    simp [UserDataProvider.get_sudoers_as_bytes, UserDataProvider.get_sudoers, hfail]
  refine ⟨?_, ?_, ?_, ?_, ?_, ?_, ?_⟩
  · rintro ⟨u, hsp⟩
    rw [getattr_eq_userdir p path u hsp]
    simp [getattrUserDir, hgu u]
  · rintro ⟨u, f, hsp⟩
    rw [getattr_eq_userfile p path u f hsp]
    simp [getattrUserFile, hgu u]
  · intro hsp
    rw [getattr_eq_sudoers p path hsp]
    simp [getattrSudoers, hgs]
  · intro hsp
    rw [readdir_eq_users p path hsp]
    simp [readdirUsers, hga]
  · rintro ⟨u, hsp⟩
    rw [readdir_eq_userdir p path u hsp]
    simp [readdirUserDir, hgu u]
  · rintro ⟨u, f, hsp⟩
    rw [read_eq_usersarm p path u f L O hsp]
    simp [readUsersArm, hgu u]
  · intro hsp
    rw [read_eq_sudoersarm p path L O hsp]
    simp [readSudoersArm, hgs]

/-- Witness for C3 as amended. -/
theorem c3_provider_error_propagates_witness :
    LDBFuse.getattr pDown "/users/bob@example.com" = .error .providerError :=
  (c3_provider_error_propagates pDown "/users/bob@example.com" 0 0 rfl).1
    ⟨"bob@example.com", by decide⟩

/-- C4 fails on the code: for the user `dave`, whose photo bytes carry no
recognized image signature, `readdir` of the user directory raises the
`TypeError` from the filename concatenation instead of omitting the
entry. -/
theorem c4_counterexample :
    LDBFuse.readdir pDave "/users/dave@example.com" = .error .typeError
    ∧ imghdr_what (bytesOf dave.jpegPhoto) = none := by decide

/-- C4 as amended: an unrecognized image signature makes `readdir` of the
user directory fail with the filename-construction `TypeError`; the entry
is not silently omitted.  The first conjunct covers a present photo with
an unrecognized signature; the second covers a present thumbnail with an
unrecognized signature, with no condition on the photo (whether the photo
is absent, recognized, or itself unrecognized, the listing still fails
with the same `TypeError`). -/
theorem c4_unrecognized_format_crashes (p : UserDataProvider) (path name : String) (u : User)
    (hsp : splitPath path = ["users", name])
    (hu : p.get_user name = .ok (some u)) :
    (truthyBytes u.jpegPhoto = true → imghdr_what (bytesOf u.jpegPhoto) = none →
        LDBFuse.readdir p path = .error .typeError)
    ∧ (truthyBytes u.thumbnailPhoto = true → imghdr_what (bytesOf u.thumbnailPhoto) = none →
        LDBFuse.readdir p path = .error .typeError) := by
  constructor
  · intro htr hsn
    rw [readdir_eq_userdir p path name hsp]
    simp [readdirUserDir, hu, htr, User.photo_filename, hsn, Except.map]
  · intro htt hsn
    rw [readdir_eq_userdir p path name hsp]
    cases htr : truthyBytes u.jpegPhoto with
    | false =>
      simp [readdirUserDir, hu, htr, htt, User.thumbnail_filename, hsn, Except.map]
    | true =>
      cases himg : imghdr_what (bytesOf u.jpegPhoto) with
      | none =>
        simp [readdirUserDir, hu, htr, User.photo_filename, himg, Except.map]
      | some ext =>
        simp [readdirUserDir, hu, htr, htt, User.photo_filename, User.thumbnail_filename,
          himg, hsn, Except.map]

/-- Witness for C4 as amended: `dave` exercises the photo conjunct, and
`frank` (recognized photo, unrecognized thumbnail) the thumbnail
conjunct. -/
theorem c4_unrecognized_format_crashes_witness :
    LDBFuse.readdir pDave "/users/dave@example.com" = .error .typeError
    ∧ LDBFuse.readdir pFrank "/users/frank@example.com" = .error .typeError :=
  ⟨(c4_unrecognized_format_crashes pDave "/users/dave@example.com" "dave@example.com" dave
      (by decide) (by decide)).1 (by decide) (by decide),
   (c4_unrecognized_format_crashes pFrank "/users/frank@example.com" "frank@example.com" frank
      (by decide) (by decide)).2 (by decide) (by decide)⟩

/-- C5 fails on the code at one snapshot: for an empty sudoers list the
code renders a single newline byte (size 1), while a rendering made of
one newline-terminated line per username is empty for the empty list. -/
theorem c5_counterexample :
    UserDataProvider.get_sudoers pEmpty = .ok []
    ∧ UserDataProvider.get_sudoers_as_bytes pEmpty = .ok [10]
    ∧ specSudoersRendering [] = []
    ∧ LDBFuse.getattr pEmpty "/sudoers.txt" = .ok (generate_file_stat 0 1) := by decide

/-- C5 as amended: for a nonempty sudoers list, the rendered text is each
username (suffix already stripped) followed by a newline, joined in list
order; `getattr` reports its exact byte length and `read` returns its
slices; for `["carol", "dave"]` the rendering is the stated 11 bytes. -/
theorem c5_sudoers_rendering (p : UserDataProvider) (names : List String) (L O : Nat)
    (hs : p.get_sudoers = .ok names) (hne : names ≠ []) :
    p.get_sudoers_as_bytes = .ok (specSudoersRendering names)
    ∧ LDBFuse.getattr p "/sudoers.txt"
        = .ok (generate_file_stat 0 (specSudoersRendering names).length)
    ∧ LDBFuse.read p "/sudoers.txt" L O
        = .ok (pySlice (specSudoersRendering names) O (O + L))
    ∧ (names = ["carol", "dave"] →
        specSudoersRendering names = [99, 97, 114, 111, 108, 10, 100, 97, 118, 101, 10]
        ∧ (specSudoersRendering names).length = 11) := by
  have hb : p.get_sudoers_as_bytes = .ok (specSudoersRendering names) := by
    unfold UserDataProvider.get_sudoers_as_bytes
    rw [hs]
    show Except.ok (pyEncode (pyJoin "\n" names ++ "\n")) = .ok (specSudoersRendering names)
    rw [pyJoin_newline names hne]
    rfl
  refine ⟨hb, ?_, ?_, ?_⟩
  · have hd : LDBFuse.getattr p "/sudoers.txt" = getattrSudoers p := rfl
    rw [hd]
    simp [getattrSudoers, hb]
  · have hd : LDBFuse.read p "/sudoers.txt" L O = readSudoersArm p L O := rfl
    rw [hd]
    simp [readSudoersArm, hb]
  · rintro rfl
    exact ⟨by decide, by decide⟩

/-- Witness for C5 as amended, at the `["carol", "dave"]` snapshot. -/
theorem c5_sudoers_rendering_witness :
    UserDataProvider.get_sudoers_as_bytes pCarol = .ok (specSudoersRendering ["carol", "dave"])
    ∧ LDBFuse.read pCarol "/sudoers.txt" 1000 0
        = .ok (pySlice (specSudoersRendering ["carol", "dave"]) 0 (0 + 1000))
    ∧ (specSudoersRendering ["carol", "dave"]).length = 11 := by
  have h := c5_sudoers_rendering pCarol ["carol", "dave"] 1000 0 (by decide) (by simp)
  exact ⟨h.1, h.2.2.1, (h.2.2.2 rfl).2⟩

/-- C7 fails on the code as stated: for the user `erin`, whose photo is a
recognized PNG but whose timestamp does not parse, `getattr` of the photo
path raises `ValueError` instead of returning file metadata. -/
theorem c7_counterexample :
    LDBFuse.getattr pErin "/users/erin@example.com/photo.png" = .error .valueError
    ∧ erin.photo_filename = .ok "photo.png" := by decide

/-- C7 as amended: for a user the provider resolves back to itself, whose
photo filename is constructible (photo present, format recognized) and
whose timestamp parses, the computed filename resolves through `getattr`
to file metadata whose size is the byte length of the photo. -/
theorem c7_photo_roundtrip (p : UserDataProvider) (path : String) (u : User) (pf : String)
    (epoch : Int)
    (hsp : splitPath path = ["users", u.name, pf])
    (hu : p.get_user u.name = .ok (some u))
    (hpf : u.photo_filename = .ok pf)
    (hts : parseModifyTimestamp u.originalModifyTimestamp = some epoch) :
    LDBFuse.getattr p path = .ok (generate_file_stat epoch (bytesOf u.jpegPhoto).length) := by
  rw [getattr_eq_userfile p path u.name pf hsp]
  simp [getattrUserFile, hu, hpf, hts]

/-- Witness for C7 as amended, for the user `alice`. -/
theorem c7_photo_roundtrip_witness :
    LDBFuse.getattr pAlice "/users/alice@example.com/photo.png"
      = .ok (generate_file_stat 1577934245 (bytesOf alice.jpegPhoto).length) :=
  c7_photo_roundtrip pAlice "/users/alice@example.com/photo.png" alice "photo.png" 1577934245
    (by decide) (by decide) (by decide) (by decide)

/-- C9: when the sudoers list of the provider is empty, the rendered text
is one newline byte: `getattr` of the sudoers file reports size 1, and any
read of at least one byte from offset 0 returns exactly the newline. -/
theorem c9_empty_sudoers (p : UserDataProvider) (n : Nat)
    (hs : p.get_sudoers = .ok []) (hn : 1 ≤ n) :
    LDBFuse.getattr p "/sudoers.txt" = .ok (generate_file_stat 0 1)
    ∧ LDBFuse.read p "/sudoers.txt" n 0 = .ok [10] := by
  have hb : p.get_sudoers_as_bytes = .ok [10] := by
    unfold UserDataProvider.get_sudoers_as_bytes
    rw [hs]
    rfl
  constructor
  · have hd : LDBFuse.getattr p "/sudoers.txt" = getattrSudoers p := rfl
    rw [hd]
    simp [getattrSudoers, hb]
  · have hd : LDBFuse.read p "/sudoers.txt" n 0 = readSudoersArm p n 0 := rfl
    rw [hd]
    simp [readSudoersArm, hb]
    cases n with
    | zero => omega
    | succ m => simp [pySlice]

/-- Witness for C9 at the empty snapshot. -/
theorem c9_empty_sudoers_witness :
    LDBFuse.getattr pEmpty "/sudoers.txt" = .ok (generate_file_stat 0 1)
    ∧ LDBFuse.read pEmpty "/sudoers.txt" 5 0 = .ok [10] :=
  c9_empty_sudoers pEmpty 5 (by decide) (by decide)
